import Mathlib

/-!
Verification of the `CarterFendley/pipelines` repository slice:
`test/sample-test/sample_test_launcher.py` and `samples/v2/subdag.py`.

The Python code is shallowly embedded: the launcher's external effects
(file-system probing, YAML loading, schema validation, subprocess calls)
are abstracted into an environment record describing their outcomes, and
the control flow of `SampleTest.__init__`, `SampleTest._compile`,
`SampleTest.run_test`, `SampleTest._injection` and
`ComponentTest._injection` is translated statement by statement.
Observable side effects (papermill execution, nbconvert and kfp-compile
subprocess invocations, file substitutions, checker delegation) are
recorded as explicit event traces.
-/

namespace Pipelines

/-! ## Python path helpers

`os.path.split(p)[-1]` and `os.path.splitext` (posixpath semantics:
the extension is taken at the last dot of the basename, except that
leading dots of the basename never start an extension). -/

/-- Embedding of `os.path.split(p)[-1]`: the part of the path after the
last slash. -/
def basename (s : String) : String :=
  String.mk ((s.data.reverse.takeWhile (fun c => c ≠ '/')).reverse)

/-- Splits a character list at its LAST dot: returns `(root, dotAndExt)`
with the input equal to `root ++ dotAndExt` and `dotAndExt` starting with
the last `'.'`, or `none` when there is no dot. -/
def splitAtLastDot : List Char → Option (List Char × List Char)
  | [] => none
  | c :: cs =>
    match splitAtLastDot cs with
    | some (r, e) => some (c :: r, e)
    | none => if c = '.' then some ([], '.' :: cs) else none

/-- Embedding of `os.path.splitext` applied to a basename: split at the
last dot, unless every character before that dot is itself a dot (then
there is no extension, as for the hidden file `.ipynb`). -/
def splitext (s : String) : String × String :=
  let cs := s.data
  let lead := (cs.takeWhile (fun c => c = '.')).length
  match splitAtLastDot cs with
  | some (r, e) => if lead ≤ r.length then (String.mk r, String.mk e) else (s, "")
  | none => (s, "")

/-! ## Errors and events -/

/-- Python exceptions that escape the modelled launcher code. -/
inductive Err where
  /-- a failed `assert` statement -/
  | assertionError (msg : String)
  /-- an explicitly raised `RuntimeError` -/
  | runtimeError (msg : String)
  /-- the `FileExistsError` raised for a missing default config -/
  | fileExistsError (msg : String)
  /-- the `ValueError` raised by `yamale.validate` on schema failure;
  it is not caught by any `except` clause of `_compile` -/
  | valueError
  deriving DecidableEq, Repr

/-- Observable side effects of `_compile`, `_injection` and `run_test`,
in program order. -/
inductive Event where
  /-- `pm.execute_notebook(..., parameters=nb_params, prepare_only=True)` -/
  | papermillExecute (nb_params : List (String × String))
  /-- `subprocess.call(['jupyter', 'nbconvert', '--to', 'python', ...])` -/
  | nbconvertCall
  /-- `subprocess.call(['kfp', 'dsl', 'compile', ...])` -/
  | kfpCompileCall
  /-- `utils.file_injection(src, dst, subs)` -/
  | fileInjectionCall (src dst : String)
  /-- delegation to `NoteBookChecker` (true) or `PySampleChecker` (false) -/
  | checkerRun (nb : Bool)
  deriving DecidableEq, Repr

/-- Outcome of loading and schema-validating the default YAML config.
On success it carries the `run_pipeline` field of the parsed document. -/
inductive DefaultConfigResult where
  | ok (run_pipeline : Bool)
  /-- `yaml.safe_load` raised `yaml.YAMLError` -/
  | yamlError
  /-- `open` raised `OSError` -/
  | osError
  /-- `yamale.validate` raised `ValueError` -/
  | schemaInvalid
  deriving DecidableEq, Repr

/-- The fields of a parsed per-test config document that `_compile`
reads: the optional `notebook_params` mapping and the optional
`run_pipeline` flag. -/
structure TestConfig where
  notebook_params : Option (List (String × String))
  run_pipeline : Option Bool
  deriving DecidableEq, Repr

/-- Outcome of loading and schema-validating the per-test YAML config. -/
inductive TestConfigResult where
  | ok (cfg : TestConfig)
  /-- `yaml.safe_load` raised `yaml.YAMLError` (caught: warning printed) -/
  | yamlError
  /-- `open` raised `OSError` (caught: warning printed) -/
  | osError
  /-- `yamale.validate` raised `ValueError` (NOT caught by the
  `except yaml.YAMLError` / `except OSError` clauses) -/
  | schemaInvalid
  deriving DecidableEq, Repr

/-- Environment of one `_compile` / `run_test` invocation: the outcomes
of every external interaction the launcher performs. -/
structure Env where
  /-- `os.path.isfile(self._test_path)` -/
  isFile : Bool
  /-- outcome of the default-config load/validate block -/
  defaultConfig : DefaultConfigResult
  /-- outcome of the per-test config load/validate block -/
  testConfig : TestConfigResult
  /-- return code of the `jupyter nbconvert` subprocess -/
  nbconvertRC : Int
  /-- return code of the `kfp dsl compile` subprocess -/
  compileRC : Int
  /-- name handed out by `NamedTemporaryFile(delete=False, suffix='.yaml')` -/
  tempFileName : String
  deriving DecidableEq, Repr

/-- The instance attributes of a `SampleTest` object that the modelled
methods read or write. -/
structure SampleTestState where
  test_name : Option String
  test_path : String
  compiled_path : Option String
  is_notebook : Option Bool
  run_pipeline : Option Bool
  sample_test_result : String
  sample_test_output : String
  host : String
  deriving DecidableEq, Repr

/-- Python `str(x)` for an optional string; `str(None)` is `"None"`. -/
def pyStr : Option String → String
  | none => "None"
  | some s => s

/-! ## SampleTest._compile -/

/-- Embedding of the extension dispatch of `SampleTest._compile`:
`.py` means a script test (`is_notebook = False`), `.ipynb` a notebook
test (`is_notebook = True`), and any other extension raises
`RuntimeError("Unrecognized test path file extension: ...")`. -/
def classify_ext (ext : String) : Except Err Bool :=
  if ext = ".py" then Except.ok false
  else if ext = ".ipynb" then Except.ok true
  else Except.error (Err.runtimeError ("Unrecognized test path file extension: " ++ ext))

/-- Python `dict` assignment `d[k] = v` on an association list: replaces
the value of an existing key, appends the binding otherwise. -/
def setParam (k v : String) : List (String × String) → List (String × String)
  | [] => [(k, v)]
  | p :: ps => if p.1 = k then (k, v) :: ps else p :: setParam k v ps

/-- The `nb_params` dictionary built in the notebook branch of
`_compile`: starts `{}`; when the config has `notebook_params` it is
updated with them, and a present `output` key is then overridden with
`self._sample_test_output`. -/
def build_nb_params (cfg : TestConfig) (sample_test_output : String) :
    List (String × String) :=
  match cfg.notebook_params with
  | none => []
  | some ps =>
    if ps.any (fun p => p.1 = "output") then setParam "output" sample_test_output ps
    else ps

/-- Tail of `_compile` shared by all test kinds: create the named
temporary `.yaml` file, store its name in `self._compiled_path`, run the
`kfp dsl compile` subprocess, and `assert return_code == 0`. -/
def finishCompile (env : Env) (st : SampleTestState) (evs : List Event) :
    Except Err SampleTestState × List Event :=
  let st' := { st with compiled_path := some env.tempFileName }
  let evs' := evs ++ [Event.kfpCompileCall]
  if env.compileRC = 0 then (Except.ok st', evs')
  else (Except.error (Err.assertionError "return_code == 0"), evs')

/-- Embedding of `SampleTest._compile`, statement by statement:
file-existence assertion; split of the basename into
`(self._test_name, ext_name)`; extension dispatch (`classify_ext`);
default-config load and validation (`yaml.YAMLError` is re-raised as
`RuntimeError`, `OSError` as `FileExistsError`, and the `ValueError` of
`yamale.validate` propagates uncaught); for notebooks, the per-test
config block whose `except` clauses catch only `yaml.YAMLError` and
`OSError` — a schema-validation `ValueError` propagates — followed by
papermill execution and the `jupyter nbconvert` subprocess, whose return
code is stored in `return_code` but never checked; finally the
`kfp dsl compile` subprocess whose return code overwrites `return_code`
and is asserted to be zero. -/
def compile_method (env : Env) (st : SampleTestState) :
    Except Err SampleTestState × List Event :=
  if env.isFile = false then
    (Except.error (Err.assertionError
      ("Specified test path is not a valid file: " ++ st.test_path)), [])
  else
    let p := splitext (basename st.test_path)
    match classify_ext p.2 with
    | Except.error e => (Except.error e, [])
    | Except.ok isNb =>
      let st1 := { st with test_name := some p.1, is_notebook := some isNb }
      match env.defaultConfig with
      | DefaultConfigResult.yamlError =>
        (Except.error (Err.runtimeError "Illegal default config"), [])
      | DefaultConfigResult.osError =>
        (Except.error (Err.fileExistsError "Default config not found"), [])
      | DefaultConfigResult.schemaInvalid => (Except.error Err.valueError, [])
      | DefaultConfigResult.ok default_run_pipeline =>
        let st2 := { st1 with run_pipeline := some default_run_pipeline }
        if isNb then
          match env.testConfig with
          | TestConfigResult.schemaInvalid =>
            -- yamale.validate raised ValueError: neither except clause
            -- matches, the exception escapes _compile.
            (Except.error Err.valueError, [])
          | TestConfigResult.yamlError =>
            -- caught: a warning is printed, nb_params stays {} and
            -- self._run_pipeline keeps the default value.
            let _rc := env.nbconvertRC
            finishCompile env st2 [Event.papermillExecute [], Event.nbconvertCall]
          | TestConfigResult.osError =>
            let _rc := env.nbconvertRC
            finishCompile env st2 [Event.papermillExecute [], Event.nbconvertCall]
          | TestConfigResult.ok cfg =>
            let nb_params := build_nb_params cfg st2.sample_test_output
            let st3 :=
              match cfg.run_pipeline with
              | some rp => { st2 with run_pipeline := some rp }
              | none => st2
            let _rc := env.nbconvertRC
            finishCompile env st3 [Event.papermillExecute nb_params, Event.nbconvertCall]
        else
          finishCompile env st2 []

/-! ## SampleTest.__init__ -/

/-- Credential-loading calls attempted during `__init__`. -/
inductive CredEvent where
  | load_incluster_config
  | load_kube_config
  deriving DecidableEq, Repr

/-- Embedding of the host resolution in `SampleTest.__init__`: when the
given host is empty, `kubernetes.config.load_incluster_config()` is
tried first; on any exception `kubernetes.config.load_kube_config()` is
tried; success of either sets the host to `http://localhost:8888`, and
an exception from the fallback is re-raised by the outer handler as
`RuntimeError('Failed to get inverse proxy hostname')`. A non-empty host
skips the whole block. -/
def resolveHost (host : String) (inclusterOk kubeOk : Bool) :
    Except Err String × List CredEvent :=
  if host = "" then
    let inner : Except Unit Unit × List CredEvent :=
      if inclusterOk then (Except.ok (), [CredEvent.load_incluster_config])
      else if kubeOk then
        (Except.ok (), [CredEvent.load_incluster_config, CredEvent.load_kube_config])
      else
        (Except.error (), [CredEvent.load_incluster_config, CredEvent.load_kube_config])
    match inner.1 with
    | Except.ok _ => (Except.ok "http://localhost:8888", inner.2)
    | Except.error _ =>
      (Except.error (Err.runtimeError "Failed to get inverse proxy hostname"), inner.2)
  else (Except.ok host, [])

/-- Embedding of `SampleTest.__init__`: sets `self._test_name = None`,
resolves the host, and computes
`self._sample_test_result = 'junit_Sample%sOutput.xml' % self._test_name`
while `self._test_name` is still `None`. -/
def init_method (test_path results_gcs_dir host : String)
    (inclusterOk kubeOk : Bool) : Except Err SampleTestState × List CredEvent :=
  let test_name : Option String := none
  match resolveHost host inclusterOk kubeOk with
  | (Except.error e, evs) => (Except.error e, evs)
  | (Except.ok h, evs) =>
    (Except.ok
      { test_name := test_name
        test_path := test_path
        compiled_path := none
        is_notebook := none
        run_pipeline := none
        sample_test_result := "junit_Sample" ++ pyStr test_name ++ "Output.xml"
        sample_test_output := results_gcs_dir
        host := h }, evs)

/-! ## run_test and the injections -/

/-- Embedding of `SampleTest._injection`: the method body is `pass`. -/
def injection_method (st : SampleTestState) : Except Err SampleTestState × List Event :=
  (Except.ok st, [])

/-- Embedding of `SampleTest.run_test`, parameterized by the `_injection`
method (overridden in `ComponentTest`): compile, inject, then delegate to
`NoteBookChecker` when `self._is_notebook` is truthy and to
`PySampleChecker` otherwise. -/
def run_test_with (inj : SampleTestState → Except Err SampleTestState × List Event)
    (env : Env) (st : SampleTestState) : Except Err SampleTestState × List Event :=
  match compile_method env st with
  | (Except.error e, evs) => (Except.error e, evs)
  | (Except.ok st1, evs) =>
    match inj st1 with
    | (Except.error e, evs2) => (Except.error e, evs ++ evs2)
    | (Except.ok st2, evs2) =>
      (Except.ok st2, evs ++ evs2 ++ [Event.checkerRun (st2.is_notebook = some true)])

/-- Embedding of `SampleTest.run_test` with the base-class `_injection`. -/
def run_test (env : Env) (st : SampleTestState) :
    Except Err SampleTestState × List Event :=
  run_test_with injection_method env st

/-! ## The image-substitution regexes of ComponentTest._injection

Each regex in the `subs` dictionary has the shape
`<literal image name>:(\w+|[.-])+` (the third one `(\w|[.-])+`): a fixed
fully-qualified image name, a colon, and a nonempty greedy run of word
characters, dots and hyphens. `re.sub` semantics over such a pattern are
embedded directly: scan left to right, replace each leftmost
non-overlapping match, copy everything else. -/

/-- Characters matched by `\w`, `.` or `-` inside the tag part of the
substitution regexes (ASCII word characters). -/
def isTagChar (c : Char) : Bool :=
  c.isAlphanum || c = '_' || c = '.' || c = '-'

/-- Matches a literal character sequence at the head of the input,
returning the rest on success. -/
def matchLit : List Char → List Char → Option (List Char)
  | [], s => some s
  | _ :: _, [] => none
  | c :: cs, d :: ds => if c = d then matchLit cs ds else none

/-- Greedy `(\w+|[.-])+` body: the longest run of tag characters and the
remaining input. -/
def takeTag : List Char → List Char × List Char
  | [] => ([], [])
  | c :: cs =>
    if isTagChar c then
      let p := takeTag cs
      (c :: p.1, p.2)
    else ([], c :: cs)

/-- Match of one substitution regex `<lit>:(\w+|[.-])+` at the head of
the input: the literal image name, a colon, and a nonempty greedy tag.
Returns the matched text and the rest of the input. -/
def matchRef (lit : List Char) (s : List Char) : Option (List Char × List Char) :=
  match matchLit lit s with
  | none => none
  | some s1 =>
    match s1 with
    | [] => none
    | c :: s2 =>
      if c = ':' then
        let p := takeTag s2
        if p.1 = [] then none else some (lit ++ ':' :: p.1, p.2)
      else none

theorem matchLit_append {lit : List Char} :
    ∀ {s r : List Char}, matchLit lit s = some r → s = lit ++ r := by
  induction lit with
  | nil => intro s r h; simpa [matchLit] using h
  | cons c cs ih =>
    intro s r h
    cases s with
    | nil => simp [matchLit] at h
    | cons d ds =>
      simp only [matchLit] at h
      split at h
      · next hd => subst hd; simpa using ih h
      · exact absurd h (by simp)

theorem takeTag_append : ∀ s : List Char, s = (takeTag s).1 ++ (takeTag s).2 := by
  intro s
  induction s with
  | nil => simp [takeTag]
  | cons c cs ih =>
    by_cases hc : isTagChar c
    · simp only [takeTag, hc, if_pos]
      simpa using ih
    · simp [takeTag, hc]

theorem takeTag_mem : ∀ (s : List Char), ∀ c ∈ (takeTag s).1, isTagChar c := by
  intro s
  induction s with
  | nil => simp [takeTag]
  | cons c cs ih =>
    by_cases hc : isTagChar c
    · simp only [takeTag, hc, if_pos]
      intro d hd
      rcases List.mem_cons.mp hd with h | h
      · subst h; exact hc
      · exact ih d h
    · simp [takeTag, hc]

theorem matchRef_sound {lit s m rest : List Char}
    (h : matchRef lit s = some (m, rest)) :
    s = m ++ rest ∧
      ∃ tag, m = lit ++ ':' :: tag ∧ tag ≠ [] ∧ ∀ c ∈ tag, isTagChar c := by
  unfold matchRef at h
  cases hl : matchLit lit s with
  | none => rw [hl] at h; exact absurd h (by simp)
  | some s1 =>
    rw [hl] at h
    cases s1 with
    | nil => exact absurd h (by simp)
    | cons c s2 =>
      simp only at h
      split at h
      · next hc =>
        subst hc
        split at h
        · exact absurd h (by simp)
        · next htag =>
          have hs : s = lit ++ ':' :: s2 := matchLit_append hl
          have heq : lit ++ ':' :: (takeTag s2).1 = m ∧ (takeTag s2).2 = rest := by
            have := h; simp at this; exact this
          refine ⟨?_, (takeTag s2).1, heq.1.symm, htag, takeTag_mem s2⟩
          rw [← heq.1, ← heq.2, hs]
          conv_lhs => rw [takeTag_append s2]
          simp
      · exact absurd h (by simp)

theorem matchRef_rest_lt {lit s m rest : List Char}
    (h : matchRef lit s = some (m, rest)) : rest.length < s.length := by
  obtain ⟨hs, tag, hm, -, -⟩ := matchRef_sound h
  have : m.length + rest.length = s.length := by
    rw [hs]; simp
  have hml : 0 < m.length := by
    rw [hm]; simp
  omega

/-- Embedding of `re.sub(regex, repl, content)` for a regex of the shape
`<lit>:(\w+|[.-])+`: scan the text, replace each leftmost
non-overlapping match with the replacement, keep every other character. -/
def reSub (lit repl : List Char) : List Char → List Char
  | [] => []
  | c :: cs =>
    match h : matchRef lit (c :: cs) with
    | some p => repl ++ reSub lit repl p.2
    | none => c :: reSub lit repl cs
termination_by s => s.length
decreasing_by
  · exact matchRef_rest_lt h
  · simp

/-- Application of a `subs` dictionary to a file content: one `re.sub`
pass per regex-to-replacement entry, in order. -/
def file_sub (subs : List (List Char × List Char)) (content : List Char) : List Char :=
  subs.foldl (fun acc p => reSub p.1 p.2 acc) content

/-! ## utils.file_injection and ComponentTest._injection -/

/-- A file system: file name to content. -/
abbrev FS := String → Option String

/-- Modelled from the spec: `utils.file_injection` lives in the
repository's sample-test `utils` module, which is not part of this
excerpt. Per the spec it substitutes container image references in the
input file using a set of regex-to-replacement mappings and writes the
substituted copy to the output file; other files are untouched. The spec
does not say what happens when the input file is missing; the model
leaves the file system unchanged in that case. -/
def file_injection (fs : FS) (src dst : String)
    (subs : List (List Char × List Char)) : FS :=
  match fs src with
  | none => fs
  | some content =>
    fun p => if p = dst then some (String.mk (file_sub subs content.data)) else fs p

/-- The fixed image name of the local-confusion-matrix regex. -/
def cmLit : List Char :=
  "gcr.io/ml-pipeline/ml-pipeline/ml-pipeline-local-confusion-matrix".data

/-- The fixed image name of the local-roc regex. -/
def rocLit : List Char :=
  "gcr.io/ml-pipeline/ml-pipeline/ml-pipeline-local-roc".data

/-- The fixed image name of the gcp regex (added only for the
`xgboost_training_cm` test). -/
def gcpLit : List Char :=
  "gcr.io/ml-pipeline/ml-pipeline-gcp".data

/-- The base `subs` dictionary of `ComponentTest._injection`. -/
def component_subs (cm roc : String) : List (List Char × List Char) :=
  [(cmLit, cm.data), (rocLit, roc.data)]

/-- Embedding of `ComponentTest._injection`: builds the `subs`
dictionary from the two local images; for the `xgboost_training_cm` test
it adds the gcp mapping and calls `utils.file_injection` once inside the
`if` branch; in every case the trailing call substitutes
`<test_name>.py.yaml` into `<test_name>.py.yaml.tmp`. -/
def component_injection (test_name cm roc gcp : String) (fs : FS) : FS :=
  let subs := component_subs cm roc
  if test_name = "xgboost_training_cm" then
    let subs := subs ++ [(gcpLit, gcp.data)]
    let fs1 := file_injection fs (test_name ++ ".py.yaml")
      (test_name ++ ".py.yaml.tmp") subs
    file_injection fs1 (test_name ++ ".py.yaml")
      (test_name ++ ".py.yaml.tmp") subs
  else
    file_injection fs (test_name ++ ".py.yaml")
      (test_name ++ ".py.yaml.tmp") subs

end Pipelines

/-! ## samples/v2/subdag.py -/

namespace Subdag

/-- A pipeline task as created by calling a component or sub-pipeline
inside a `@dsl.pipeline` function. KFP creates tasks with result caching
enabled by default. -/
structure PipelineTask where
  task_name : String
  enable_caching : Bool
  deriving DecidableEq, Repr

/-- Task creation: caching is enabled unless configured otherwise. -/
def new_task (s : String) : PipelineTask :=
  { task_name := s, enable_caching := true }

/-- Embedding of `task.set_caching_options(b)`. -/
def set_caching_options (t : PipelineTask) (b : Bool) : PipelineTask :=
  { t with enable_caching := b }

/-- Embedding of `inner_pipeline`: creates the `inner_comp` task,
disables caching on it, and returns its output. The task list of the
pipeline is the single component task. -/
def inner_pipeline : List PipelineTask :=
  let inner_comp_task := new_task "inner-comp"
  let inner_comp_task := set_caching_options inner_comp_task false
  [inner_comp_task]

/-- Embedding of `outer_pipeline`: instantiates `inner_pipeline` as a
sub-pipeline task, feeds its output to the `outer_comp` task, and
disables caching on the `outer_comp` task only. -/
def outer_pipeline : List PipelineTask :=
  let inner_pipeline_task := new_task "inner-pipeline"
  let outer_comp_task := new_task "outer-comp"
  let outer_comp_task := set_caching_options outer_comp_task false
  [inner_pipeline_task, outer_comp_task]

end Subdag

namespace Pipelines

/-! ## Concrete instances used to exercise the theorems -/

/-- A freshly initialized state for a notebook test. -/
def stNb : SampleTestState :=
  { test_name := none
    test_path := "notebook_sample.ipynb"
    compiled_path := none
    is_notebook := none
    run_pipeline := none
    sample_test_result := "junit_SampleNoneOutput.xml"
    sample_test_output := "gs://results"
    host := "http://localhost:8888" }

/-- A freshly initialized state for a script test. -/
def stPy : SampleTestState :=
  { stNb with test_path := "sample.py" }

/-- An environment in which every external interaction succeeds. -/
def envOk : Env :=
  { isFile := true
    defaultConfig := DefaultConfigResult.ok true
    testConfig := TestConfigResult.ok { notebook_params := none, run_pipeline := none }
    nbconvertRC := 0
    compileRC := 0
    tempFileName := "/tmp/compiled.yaml" }

/-- A concrete one-file file system for exercising the injection. -/
def wFS : FS := fun p => if p = "mytest.py.yaml" then some "x gcr.io/img:1" else none

/-! ## Claim theorems -/

/-- C3: `SampleTest._compile` maps the extension `.py` to a script test
(`is_notebook = false`), `.ipynb` to a notebook test
(`is_notebook = true`), and every other extension to a descriptive
`RuntimeError`; an extension error aborts `_compile` with no side
effect. -/
theorem C3_extension_dispatch (ext : String) :
    (ext = ".py" → classify_ext ext = Except.ok false) ∧
    (ext = ".ipynb" → classify_ext ext = Except.ok true) ∧
    (ext ≠ ".py" → ext ≠ ".ipynb" →
      classify_ext ext = Except.error
        (Err.runtimeError ("Unrecognized test path file extension: " ++ ext))) ∧
    (∀ (env : Env) (st : SampleTestState) (e : Err), env.isFile = true →
      classify_ext (splitext (basename st.test_path)).2 = Except.error e →
      compile_method env st = (Except.error e, [])) := by
  refine ⟨?_, ?_, ?_, ?_⟩
  · intro h; simp [classify_ext, h]
  · intro h; subst h; rfl
  · intro h1 h2; simp [classify_ext, h1, h2]
  · intro env st e hf hc
    simp only [compile_method, hf, Bool.true_eq_false, if_false, hc]

/-- Witness for C3 at the concrete extension `.txt`. -/
theorem C3_extension_dispatch_witness :
    classify_ext ".txt" = Except.error
      (Err.runtimeError ("Unrecognized test path file extension: " ++ ".txt")) :=
  (C3_extension_dispatch ".txt").2.2.1 (by decide) (by decide)

/-- C8: across the subdag sample exactly two tasks have result caching
disabled — the inner component task of `inner_pipeline` and the outer
component task of `outer_pipeline` — while the sub-pipeline task keeps
caching enabled. -/
theorem C8_caching_disabled_on_exactly_two_steps :
    ((Subdag.inner_pipeline ++ Subdag.outer_pipeline).filter
        (fun t => t.enable_caching = false)).map Subdag.PipelineTask.task_name
      = ["inner-comp", "outer-comp"] ∧
    ((Subdag.inner_pipeline ++ Subdag.outer_pipeline).filter
        (fun t => t.enable_caching = false)).length = 2 ∧
    (∀ t ∈ Subdag.inner_pipeline ++ Subdag.outer_pipeline,
      t.enable_caching = false ↔
        (t.task_name = "inner-comp" ∨ t.task_name = "outer-comp")) := by
  refine ⟨rfl, rfl, ?_⟩
  decide

/-- C6: with an empty host, `__init__` attempts in-cluster credential
loading first, attempts kube-config loading exactly when the in-cluster
attempt fails, attempts each at most once, sets the host to
`http://localhost:8888` when either succeeds, and raises the
`RuntimeError` when both fail; with a non-empty host no credential
loading is attempted. -/
theorem C6_host_resolution :
    (∀ ic k : Bool,
      (resolveHost "" ic k).2.head? = some CredEvent.load_incluster_config ∧
      (CredEvent.load_kube_config ∈ (resolveHost "" ic k).2 ↔ ic = false) ∧
      (resolveHost "" ic k).2.count CredEvent.load_incluster_config ≤ 1 ∧
      (resolveHost "" ic k).2.count CredEvent.load_kube_config ≤ 1 ∧
      (ic = true ∨ k = true →
        (resolveHost "" ic k).1 = Except.ok "http://localhost:8888") ∧
      (ic = false → k = false →
        (resolveHost "" ic k).1 =
          Except.error (Err.runtimeError "Failed to get inverse proxy hostname"))) ∧
    (∀ (host : String) (ic k : Bool), host ≠ "" →
      resolveHost host ic k = (Except.ok host, [])) := by
  constructor
  · intro ic k
    cases ic <;> cases k <;> simp [resolveHost]
  · intro host ic k h
    simp [resolveHost, h]

/-- Witness for C6 with a non-empty host and with both loaders failing. -/
theorem C6_host_resolution_witness :
    resolveHost "http://example.test:8888" true true =
      (Except.ok "http://example.test:8888", []) :=
  C6_host_resolution.2 "http://example.test:8888" true true (by decide)

/-- Helper: with a non-zero compile return code, `_compile` always ends
in an exception, whatever the rest of the environment does. -/
theorem compile_method_error_of_bad_rc (env : Env) (st : SampleTestState)
    (h : env.compileRC ≠ 0) :
    ∃ e evs, compile_method env st = (Except.error e, evs) := by
  simp only [compile_method, finishCompile]
  repeat' split
  all_goals exact ⟨_, _, rfl⟩

/-- Helper: `_compile` itself never emits a checker-delegation event. -/
theorem compile_method_no_checker (env : Env) (st : SampleTestState) (b : Bool) :
    Event.checkerRun b ∉ (compile_method env st).2 := by
  simp only [compile_method, finishCompile]
  repeat' split
  all_goals simp

/-- Helper: with a non-zero compile return code, either `_compile`
fails with the assertion `return_code == 0`, or it never reached the
compile subprocess at all. -/
theorem compile_method_assert_or (env : Env) (st : SampleTestState)
    (h : env.compileRC ≠ 0) :
    (compile_method env st).1 = Except.error (Err.assertionError "return_code == 0") ∨
      Event.kfpCompileCall ∉ (compile_method env st).2 := by
  simp only [compile_method, finishCompile]
  repeat' split
  all_goals first
    | (left; rfl)
    | (right; simp)

/-- C2: whenever the `kfp dsl compile` subprocess exits non-zero,
`run_test` raises, the checker delegation is never reached, and — when
the compile subprocess actually ran — the error is precisely the
`assert return_code == 0` failure of `_compile`. -/
theorem C2_nonzero_compile_rc_aborts
    (inj : SampleTestState → Except Err SampleTestState × List Event)
    (env : Env) (st : SampleTestState) (h : env.compileRC ≠ 0) :
    (∃ e, (run_test_with inj env st).1 = Except.error e) ∧
    (∀ b : Bool, Event.checkerRun b ∉ (run_test_with inj env st).2) ∧
    (Event.kfpCompileCall ∈ (compile_method env st).2 →
      (compile_method env st).1 =
        Except.error (Err.assertionError "return_code == 0")) := by
  obtain ⟨e, evs, hE⟩ := compile_method_error_of_bad_rc env st h
  have hrun : run_test_with inj env st = (Except.error e, evs) := by
    simp only [run_test_with, hE]
  refine ⟨⟨e, by rw [hrun]⟩, ?_, ?_⟩
  · intro b
    rw [hrun]
    have hb := compile_method_no_checker env st b
    rw [hE] at hb
    simpa using hb
  · intro hmem
    rcases compile_method_assert_or env st h with h1 | h2
    · exact h1
    · exact absurd hmem h2

/-- Witness for C2 at a concrete script test whose compiler exits 1. -/
theorem C2_nonzero_compile_rc_aborts_witness :
    ∃ e, (run_test_with injection_method { envOk with compileRC := 1 } stPy).1 =
      Except.error e :=
  (C2_nonzero_compile_rc_aborts injection_method
    { envOk with compileRC := 1 } stPy (by decide)).1

/-- C4: a failure to load or schema-validate the default YAML config
makes `_compile` raise with an empty event trace: neither papermill,
nor nbconvert, nor the compile subprocess is ever invoked. -/
theorem C4_default_config_failure_aborts (env : Env) (st : SampleTestState)
    (h : env.defaultConfig = DefaultConfigResult.yamlError ∨
         env.defaultConfig = DefaultConfigResult.osError ∨
         env.defaultConfig = DefaultConfigResult.schemaInvalid) :
    ∃ e, compile_method env st = (Except.error e, []) := by
  simp only [compile_method]
  split
  · exact ⟨_, rfl⟩
  · split
    · exact ⟨_, rfl⟩
    · rcases h with h | h | h <;> rw [h] <;> exact ⟨_, rfl⟩

/-- Witness for C4 with a default config that fails schema validation. -/
theorem C4_default_config_failure_aborts_witness :
    ∃ e, compile_method
        { envOk with defaultConfig := DefaultConfigResult.schemaInvalid } stPy =
      (Except.error e, []) :=
  C4_default_config_failure_aborts _ _ (Or.inr (Or.inr rfl))

/-- C10: the junit result filename is computed in `__init__` while
`self._test_name` is still `None`, so it is `junit_SampleNoneOutput.xml`
for every test path; `_compile` recomputes `self._test_name` but leaves
`self._sample_test_result` untouched. -/
theorem C10_result_filename_fixed :
    (∀ (test_path results_gcs_dir host : String) (ic k : Bool)
        (st : SampleTestState) (evs : List CredEvent),
      init_method test_path results_gcs_dir host ic k = (Except.ok st, evs) →
      st.sample_test_result = "junit_SampleNoneOutput.xml") ∧
    (∀ (env : Env) (st st' : SampleTestState) (evs : List Event),
      compile_method env st = (Except.ok st', evs) →
      st'.sample_test_result = st.sample_test_result) := by
  constructor
  · intro tp rd host ic k st evs h
    simp only [init_method] at h
    split at h
    · simp at h
    · simp only [Prod.mk.injEq, Except.ok.injEq] at h
      rw [← h.1]
      rfl
  · intro env st st' evs h
    simp only [compile_method, finishCompile] at h
    repeat' split at h
    all_goals first
      | (obtain ⟨h1, h2⟩ := Prod.mk.inj h
         rw [← Except.ok.inj h1])
      | exact absurd h (by simp)

/-- Witness for C10 at a concrete construction and compilation. -/
theorem C10_result_filename_fixed_witness :
    (∃ st evs,
      init_method "sample.py" "gs://results" "http://h" true true =
        (Except.ok st, evs) ∧
      st.sample_test_result = "junit_SampleNoneOutput.xml") ∧
    (∃ st' evs, compile_method envOk stPy = (Except.ok st', evs) ∧
      st'.sample_test_result = stPy.sample_test_result) := by
  constructor
  · have h : init_method "sample.py" "gs://results" "http://h" true true =
      (Except.ok
        { test_name := none
          test_path := "sample.py"
          compiled_path := none
          is_notebook := none
          run_pipeline := none
          sample_test_result := "junit_Sample" ++ pyStr none ++ "Output.xml"
          sample_test_output := "gs://results"
          host := "http://h" }, []) := rfl
    exact ⟨_, _, h, C10_result_filename_fixed.1 _ _ _ _ _ _ _ h⟩
  · have h : compile_method envOk stPy =
      (Except.ok
        { test_name := some "sample"
          test_path := "sample.py"
          compiled_path := some "/tmp/compiled.yaml"
          is_notebook := some false
          run_pipeline := some true
          sample_test_result := "junit_SampleNoneOutput.xml"
          sample_test_output := "gs://results"
          host := "http://localhost:8888" }, [Event.kfpCompileCall]) := by
      rfl
    exact ⟨_, _, h, C10_result_filename_fixed.2 _ _ _ _ h⟩

/-- Helper: `String.append` concatenates the character data. -/
theorem string_data_append (a b : String) : (a ++ b).data = a.data ++ b.data := rfl

/-- Helper: the injection source file and its `.tmp` destination are
distinct paths. -/
theorem yaml_ne_tmp (n : String) : n ++ ".py.yaml" ≠ n ++ ".py.yaml.tmp" := by
  intro h
  have hd : (n ++ ".py.yaml").data = (n ++ ".py.yaml.tmp").data := congrArg String.data h
  rw [string_data_append, string_data_append] at hd
  have hl := congrArg List.length hd
  simp at hl

/-- Helper: no substitution regex matches the empty text. -/
theorem matchRef_nil (lit : List Char) : matchRef lit [] = none := by
  cases lit <;> rfl

/-- Helper: substitution on the empty text is the empty text. -/
theorem reSub_nil (lit repl : List Char) : reSub lit repl [] = [] := by
  rw [reSub]

/-- Helper: a prefix in which no match starts is copied verbatim by the
substitution (matches may not span into it from the left, as the scan is
leftmost). -/
theorem reSub_frame (lit repl : List Char) :
    ∀ u v : List Char,
      (∀ i, i < u.length → matchRef lit (List.drop i (u ++ v)) = none) →
      reSub lit repl (u ++ v) = u ++ reSub lit repl v := by
  intro u
  induction u with
  | nil => intro v _; rfl
  | cons c u ih =>
    intro v h
    have h0 : matchRef lit (c :: (u ++ v)) = none := by
      have := h 0 (by simp)
      simpa using this
    rw [List.cons_append, reSub]
    split
    · next p hp =>
      rw [h0] at hp
      exact absurd hp (by simp)
    · rw [ih v (fun i hi => by have := h (i + 1) (by simpa using hi); simpa using this)]
      simp

/-- Helper: `classify_ext` on the notebook extension. -/
theorem classify_ext_ipynb : classify_ext ".ipynb" = Except.ok true := rfl

/-- Helper: `classify_ext` on the script extension. -/
theorem classify_ext_py : classify_ext ".py" = Except.ok false := rfl

/-- Helper: behaviour of the shared compile tail — the compile
subprocess always runs and its event is recorded; a zero return code
yields the updated state, a non-zero one the assertion failure. -/
theorem finishCompile_spec (env : Env) (st : SampleTestState) (evs : List Event) :
    (finishCompile env st evs).2 = evs ++ [Event.kfpCompileCall] ∧
    (env.compileRC = 0 →
      finishCompile env st evs =
        (Except.ok { st with compiled_path := some env.tempFileName },
         evs ++ [Event.kfpCompileCall])) ∧
    (env.compileRC ≠ 0 →
      (finishCompile env st evs).1 =
        Except.error (Err.assertionError "return_code == 0")) := by
  unfold finishCompile
  by_cases h : env.compileRC = 0 <;> simp [h]

/-- C9: the return code of the `jupyter nbconvert` subprocess is dead:
it is overwritten by the compile subprocess's return code before the
assertion, so `_compile` is entirely independent of it, and a notebook
test whose conversion failed still succeeds when the rest of the
environment is healthy. -/
theorem C9_nbconvert_rc_unchecked :
    (∀ (env : Env) (st : SampleTestState) (n : Int),
      compile_method env st = compile_method { env with nbconvertRC := n } st) ∧
    (∀ (env : Env) (st : SampleTestState) (d : Bool),
      env.isFile = true →
      (splitext (basename st.test_path)).2 = ".ipynb" →
      env.defaultConfig = DefaultConfigResult.ok d →
      env.testConfig ≠ TestConfigResult.schemaInvalid →
      env.compileRC = 0 →
      (compile_method env st).1.isOk = true) := by
  constructor
  · intro env st n
    cases env
    rfl
  · intro env st d h1 h2 h3 h4 h5
    cases htc : env.testConfig with
    | schemaInvalid => exact absurd htc h4
    | yamlError =>
      simp [compile_method, finishCompile, h1, h2, h3, htc, h5, classify_ext_ipynb,
        Except.isOk, Except.toBool]
    | osError =>
      simp [compile_method, finishCompile, h1, h2, h3, htc, h5, classify_ext_ipynb,
        Except.isOk, Except.toBool]
    | ok cfg =>
      cases hrp : cfg.run_pipeline <;>
        simp [compile_method, finishCompile, h1, h2, h3, htc, h5, hrp, classify_ext_ipynb,
          Except.isOk, Except.toBool]

/-- Witness for C9: a notebook test whose nbconvert subprocess exits 2
compiles successfully, and changing that return code to 7 changes
nothing. -/
theorem C9_nbconvert_rc_unchecked_witness :
    (compile_method { envOk with nbconvertRC := 2 } stNb =
      compile_method { { envOk with nbconvertRC := 2 } with nbconvertRC := 7 } stNb) ∧
    (compile_method { envOk with nbconvertRC := 2 } stNb).1.isOk = true := by
  constructor
  · exact C9_nbconvert_rc_unchecked.1 { envOk with nbconvertRC := 2 } stNb 7
  · exact C9_nbconvert_rc_unchecked.2 { envOk with nbconvertRC := 2 } stNb true rfl rfl rfl
      (by decide) rfl

/-- C1 counterexample: a per-test config that parses as YAML but fails
schema validation does abort the run — the `ValueError` of
`yamale.validate` is caught by neither `except` clause, so `_compile`
raises before notebook execution and before any compilation. -/
theorem C1_schema_failure_aborts_counterexample :
    compile_method { envOk with testConfig := TestConfigResult.schemaInvalid } stNb =
      (Except.error Err.valueError, []) := rfl

/-- C1 (amended): for every notebook test, a missing per-test config
file or unparseable per-test YAML never aborts the run — `_compile`
prints a warning, keeps the default parameters (empty notebook
parameters and the default config's `run_pipeline`), and continues to
notebook execution, conversion and compilation. -/
theorem C1_per_test_config_fallback (env : Env) (st : SampleTestState) (d : Bool)
    (h1 : env.isFile = true)
    (h2 : (splitext (basename st.test_path)).2 = ".ipynb")
    (h3 : env.defaultConfig = DefaultConfigResult.ok d)
    (h4 : env.testConfig = TestConfigResult.yamlError ∨
          env.testConfig = TestConfigResult.osError) :
    (compile_method env st).2 =
      [Event.papermillExecute [], Event.nbconvertCall, Event.kfpCompileCall] ∧
    (∀ st', (compile_method env st).1 = Except.ok st' → st'.run_pipeline = some d) ∧
    (env.compileRC = 0 → (compile_method env st).1.isOk = true) := by
  have hred : compile_method env st =
      finishCompile env
        { st with
          test_name := some (splitext (basename st.test_path)).1
          is_notebook := some true
          run_pipeline := some d }
        [Event.papermillExecute [], Event.nbconvertCall] := by
    rcases h4 with h4 | h4 <;>
      simp [compile_method, h1, h2, h3, h4, classify_ext_ipynb]
  rw [hred]
  obtain ⟨ht, hok0, hbad⟩ := finishCompile_spec env
    { st with
      test_name := some (splitext (basename st.test_path)).1
      is_notebook := some true
      run_pipeline := some d }
    [Event.papermillExecute [], Event.nbconvertCall]
  refine ⟨by simpa using ht, ?_, ?_⟩
  · intro st' hok
    by_cases h5 : env.compileRC = 0
    · rw [hok0 h5] at hok
      simp only [Except.ok.injEq] at hok
      rw [← hok]
    · rw [hbad h5] at hok
      exact absurd hok (by simp)
  · intro h5
    rw [hok0 h5]
    rfl

/-- Witness for the amended C1: a notebook test with a missing per-test
config runs papermill, nbconvert and the compiler. -/
theorem C1_per_test_config_fallback_witness :
    (compile_method { envOk with testConfig := TestConfigResult.osError } stNb).2 =
      [Event.papermillExecute [], Event.nbconvertCall, Event.kfpCompileCall] :=
  (C1_per_test_config_fallback { envOk with testConfig := TestConfigResult.osError }
    stNb true rfl rfl rfl (Or.inr rfl)).1

/-- Helper: `utils.file_injection` puts the substituted copy of the
source file at the destination path. -/
theorem file_injection_at_dst (fs : FS) (src dst : String)
    (subs : List (List Char × List Char)) (content : String)
    (h : fs src = some content) :
    file_injection fs src dst subs dst = some (String.mk (file_sub subs content.data)) := by
  simp only [file_injection, h]
  simp

/-- Helper: `utils.file_injection` leaves every path other than the
destination unchanged. -/
theorem file_injection_at_other (fs : FS) (src dst : String)
    (subs : List (List Char × List Char)) (p : String) (hp : p ≠ dst) :
    file_injection fs src dst subs p = fs p := by
  unfold file_injection
  cases hs : fs src with
  | none => rfl
  | some content => simp [hp]

/-- Helper: for the `xgboost_training_cm` test, `_injection` augments
the substitution dictionary with the gcp mapping and performs the file
substitution twice (once inside the `if` branch, once after it). -/
theorem component_injection_xgb (cm roc gcp : String) (fs : FS) :
    component_injection "xgboost_training_cm" cm roc gcp fs =
      file_injection
        (file_injection fs ("xgboost_training_cm" ++ ".py.yaml")
          ("xgboost_training_cm" ++ ".py.yaml.tmp")
          (component_subs cm roc ++ [(gcpLit, gcp.data)]))
        ("xgboost_training_cm" ++ ".py.yaml") ("xgboost_training_cm" ++ ".py.yaml.tmp")
        (component_subs cm roc ++ [(gcpLit, gcp.data)]) := by
  rfl

/-- Helper: for every other component test, `_injection` performs the
file substitution once, with the two local-image mappings. -/
theorem component_injection_not_xgb (test_name cm roc gcp : String) (fs : FS)
    (hx : test_name ≠ "xgboost_training_cm") :
    component_injection test_name cm roc gcp fs =
      file_injection fs (test_name ++ ".py.yaml") (test_name ++ ".py.yaml.tmp")
        (component_subs cm roc) := by
  unfold component_injection
  rw [if_neg hx]

/-- C5: the base-class `_injection` is a pass statement (plain sample
tests perform no injection), while `ComponentTest._injection` writes
exactly one file — the substituted copy of `<test_name>.py.yaml` under
the additional `.tmp` suffix, produced by the fixed regex-to-replacement
mappings — and leaves every other file untouched. -/
theorem C5_injection_no_op_and_tmp_copy (test_name cm roc gcp content : String)
    (fs : FS) (h : fs (test_name ++ ".py.yaml") = some content) :
    (∀ st : SampleTestState, injection_method st = (Except.ok st, [])) ∧
    component_injection test_name cm roc gcp fs = fun p =>
      if p = test_name ++ ".py.yaml.tmp" then
        some (String.mk (file_sub
          (if test_name = "xgboost_training_cm" then
            component_subs cm roc ++ [(gcpLit, gcp.data)]
          else component_subs cm roc) content.data))
      else fs p := by
  refine ⟨fun st => rfl, ?_⟩
  funext p
  by_cases hx : test_name = "xgboost_training_cm"
  · subst hx
    rw [component_injection_xgb]
    by_cases hp : p = "xgboost_training_cm" ++ ".py.yaml.tmp"
    · subst hp
      have hsrc : file_injection fs ("xgboost_training_cm" ++ ".py.yaml")
          ("xgboost_training_cm" ++ ".py.yaml.tmp")
          (component_subs cm roc ++ [(gcpLit, gcp.data)])
          ("xgboost_training_cm" ++ ".py.yaml") = some content := by
        rw [file_injection_at_other _ _ _ _ _ (yaml_ne_tmp _)]
        exact h
      rw [file_injection_at_dst _ _ _ _ content hsrc]
      rw [if_pos rfl]
      simp
    · rw [file_injection_at_other _ _ _ _ _ hp, file_injection_at_other _ _ _ _ _ hp,
        if_neg hp]
  · rw [component_injection_not_xgb _ _ _ _ _ hx]
    by_cases hp : p = test_name ++ ".py.yaml.tmp"
    · subst hp
      rw [file_injection_at_dst _ _ _ _ content h, if_pos rfl, if_neg hx]
    · rw [file_injection_at_other _ _ _ _ _ hp, if_neg hp]

/-- Witness for C5 on a concrete one-file file system. -/
theorem C5_injection_no_op_and_tmp_copy_witness :
    component_injection "mytest" "cmimg" "rocimg" "gcpimg" wFS = fun p =>
      if p = "mytest" ++ ".py.yaml.tmp" then
        some (String.mk (file_sub
          (if "mytest" = "xgboost_training_cm" then
            component_subs "cmimg" "rocimg" ++ [(gcpLit, "gcpimg".data)]
          else component_subs "cmimg" "rocimg") "x gcr.io/img:1".data))
      else wFS p :=
  (C5_injection_no_op_and_tmp_copy "mytest" "cmimg" "rocimg" "gcpimg"
    "x gcr.io/img:1" wFS rfl).2

/-- C7: every match of each of the three image-substitution regexes of
`ComponentTest._injection` is exactly the fixed fully-qualified image
name followed by a colon and a nonempty tag built from word characters,
dots and hyphens; any prefix in which no match starts is copied verbatim
by the substitution, and a text with no match anywhere is left entirely
unchanged. -/
theorem C7_regex_shape_and_frame :
    (∀ lit ∈ [cmLit, rocLit, gcpLit], ∀ s m rest : List Char,
      matchRef lit s = some (m, rest) →
      ∃ tag, m = lit ++ ':' :: tag ∧ tag ≠ [] ∧ ∀ c ∈ tag, isTagChar c) ∧
    (∀ lit ∈ [cmLit, rocLit, gcpLit], ∀ repl u v : List Char,
      (∀ i, i < u.length → matchRef lit (List.drop i (u ++ v)) = none) →
      reSub lit repl (u ++ v) = u ++ reSub lit repl v) ∧
    (∀ lit ∈ [cmLit, rocLit, gcpLit], ∀ repl s : List Char,
      (∀ i, i < s.length → matchRef lit (List.drop i s) = none) →
      reSub lit repl s = s) := by
  refine ⟨?_, ?_, ?_⟩
  · intro lit _ s m rest hm
    exact (matchRef_sound hm).2
  · intro lit _ repl u v h
    exact reSub_frame lit repl u v h
  · intro lit _ repl s h
    have hf := reSub_frame lit repl s [] (by simpa using h)
    simpa [reSub_nil] using hf

/-- Witness for C7: a concrete match of the confusion-matrix regex has
the required shape, and a concrete match-free text is preserved. -/
theorem C7_regex_shape_and_frame_witness :
    (∃ tag, cmLit ++ ':' :: "v1".data = cmLit ++ ':' :: tag ∧ tag ≠ [] ∧
      ∀ c ∈ tag, isTagChar c) ∧
    reSub cmLit "IMG".data ("abc".data ++ []) = "abc".data ++ reSub cmLit "IMG".data [] := by
  constructor
  · exact C7_regex_shape_and_frame.1 cmLit (by simp) (cmLit ++ ':' :: "v1".data)
      (cmLit ++ ':' :: "v1".data) [] (by decide)
  · exact C7_regex_shape_and_frame.2.1 cmLit (by simp) "IMG".data "abc".data [] (by decide)

/-- Witness for C8 at the outer component task. -/
theorem C8_caching_disabled_witness :
    (Subdag.set_caching_options (Subdag.new_task "outer-comp") false).enable_caching
        = false ↔
      ((Subdag.set_caching_options (Subdag.new_task "outer-comp") false).task_name
          = "inner-comp" ∨
       (Subdag.set_caching_options (Subdag.new_task "outer-comp") false).task_name
          = "outer-comp") :=
  C8_caching_disabled_on_exactly_two_steps.2.2 _ (by decide)

end Pipelines
